import Mathlib

/-!
Shallow embedding of the rate limiter (`src/lib/rate-limiter.ts`) and the
portfolio-optimization orchestration (`src/lib/api.ts`) of the
portfolioPilot repository, together with theorems settling the frozen
claims about them.

Conventions of the embedding:
* JavaScript numbers holding millisecond timestamps are modelled as `Int`
  (they may go negative in intermediate expressions such as `now - 3600000`).
* The fractional `warningThresholdPercent` and the derived warning
  thresholds are modelled as `Rat`.
* `Date.now()` is an external input: every stateful operation takes the
  current time `now` as an explicit argument and returns the new state.
* Strings are built exactly as the template literals in the source build
  them.
-/

/-- Options record of the `RateLimiter` constructor
(`RateLimiterOptions` in `rate-limiter.ts`). -/
structure RateLimiterOptions where
  requestsPerHour : Nat
  requestsPerDay : Nat
  warningThresholdPercent : Option Rat
deriving Repr, DecidableEq

/-- Result record of `requestPermission`
(`RequestPermissionResult` in `rate-limiter.ts`).  `delayMs` is `none`
exactly when the field is absent in the JavaScript object. -/
structure RequestPermissionResult where
  allowed : Bool
  delayMs : Option Int
  warning : Option String
deriving Repr, DecidableEq

/-- Constant `DEFAULT_WARNING_THRESHOLD` from `rate-limiter.ts`. -/
def DEFAULT_WARNING_THRESHOLD : Rat := 1 / 10

/-- State of a `RateLimiter` instance: the four fields fixed by the
constructor plus the two mutable timestamp arrays. -/
structure RateLimiter where
  hourlyLimit : Nat
  dailyLimit : Nat
  warningThresholdHourly : Rat
  warningThresholdDaily : Rat
  hourlyRequestTimestamps : List Int
  dailyRequestTimestamps : List Int
deriving Repr, DecidableEq

/-- The `RateLimiter` constructor of `rate-limiter.ts`. -/
def RateLimiter.create (options : RateLimiterOptions) : RateLimiter :=
  let warningThreshold :=
    options.warningThresholdPercent.getD DEFAULT_WARNING_THRESHOLD
  { hourlyLimit := options.requestsPerHour
    dailyLimit := options.requestsPerDay
    warningThresholdHourly := (options.requestsPerHour : Rat) * (1 - warningThreshold)
    warningThresholdDaily := (options.requestsPerDay : Rat) * (1 - warningThreshold)
    hourlyRequestTimestamps := []
    dailyRequestTimestamps := [] }

/-- Method `RateLimiter.cleanupTimestamps`: drop entries older than one hour
(hourly log) resp. one day (daily log) at time `now`. -/
def cleanupTimestamps (rl : RateLimiter) (now : Int) : RateLimiter :=
  { rl with
    hourlyRequestTimestamps :=
      rl.hourlyRequestTimestamps.filter (fun ts => decide (now - 60 * 60 * 1000 < ts))
    dailyRequestTimestamps :=
      rl.dailyRequestTimestamps.filter (fun ts => decide (now - 24 * 60 * 60 * 1000 < ts)) }

/-- Union type (hourly or daily) used by `calculateDelay`. -/
inductive LimitType where
  | hourly
  | daily
deriving Repr, DecidableEq

/-- Method `RateLimiter.calculateDelay`: time until the first (oldest) entry of
the selected log leaves its window, plus a 100 ms buffer; `0` when the
log is empty. -/
def calculateDelay (rl : RateLimiter) (limitType : LimitType) (now : Int) : Int :=
  let timestamps :=
    match limitType with
    | LimitType.hourly => rl.hourlyRequestTimestamps
    | LimitType.daily => rl.dailyRequestTimestamps
  let expiryTime : Int :=
    match limitType with
    | LimitType.hourly => 60 * 60 * 1000
    | LimitType.daily => 24 * 60 * 60 * 1000
  match timestamps with
  | [] => 0
  | oldestTimestamp :: _ => max 0 (oldestTimestamp + expiryTime - now) + 100

/-- The warning string composed by `RateLimiter.checkThresholds` from the
(already pruned) state. -/
def checkThresholdsWarning (rl : RateLimiter) : Option String :=
  let hourlyCount := rl.hourlyRequestTimestamps.length
  let dailyCount := rl.dailyRequestTimestamps.length
  let warning : Option String :=
    if rl.hourlyLimit ≤ hourlyCount then
      some ("Hourly rate limit exceeded (" ++ toString hourlyCount ++ "/" ++
        toString rl.hourlyLimit ++ ").")
    else if rl.warningThresholdHourly ≤ (hourlyCount : Rat) then
      some ("Approaching hourly rate limit (" ++ toString hourlyCount ++ "/" ++
        toString rl.hourlyLimit ++ ").")
    else none
  if rl.dailyLimit ≤ dailyCount then
    let dailyWarning := "Daily rate limit exceeded (" ++ toString dailyCount ++ "/" ++
      toString rl.dailyLimit ++ ")."
    some (match warning with
      | some w => w ++ " " ++ dailyWarning
      | none => dailyWarning)
  else if rl.warningThresholdDaily ≤ (dailyCount : Rat) then
    let dailyWarning := "Approaching daily rate limit (" ++ toString dailyCount ++ "/" ++
      toString rl.dailyLimit ++ ")."
    some (match warning with
      | some w => w ++ " " ++ dailyWarning
      | none => dailyWarning)
  else warning

/-- Method `RateLimiter.checkThresholds`: prune both logs at `now`, then report a
warning if a window is at/over its limit or at/over its warning
threshold.  Returns the warning and the (pruned) new state. -/
def checkThresholds (rl : RateLimiter) (now : Int) : Option String × RateLimiter :=
  let rl1 := cleanupTimestamps rl now
  (checkThresholdsWarning rl1, rl1)

/-- Method `RateLimiter.requestPermission`: prune, deny with a computed delay if
a window is full, otherwise record `now` in both logs and return the
pre-recording threshold warning. -/
def requestPermission (rl : RateLimiter) (now : Int) : RequestPermissionResult × RateLimiter :=
  let rl1 := cleanupTimestamps rl now
  let hourlyCount := rl1.hourlyRequestTimestamps.length
  let dailyCount := rl1.dailyRequestTimestamps.length
  if rl1.hourlyLimit ≤ hourlyCount then
    ({ allowed := false
       delayMs := some (calculateDelay rl1 LimitType.hourly now)
       warning := some ("Hourly rate limit exceeded (" ++ toString hourlyCount ++ "/" ++
         toString rl1.hourlyLimit ++ ").") }, rl1)
  else if rl1.dailyLimit ≤ dailyCount then
    ({ allowed := false
       delayMs := some (calculateDelay rl1 LimitType.daily now)
       warning := some ("Daily rate limit exceeded (" ++ toString dailyCount ++ "/" ++
         toString rl1.dailyLimit ++ ").") }, rl1)
  else
    let checked := checkThresholds rl1 now
    ({ allowed := true, delayMs := none, warning := checked.1 },
     { checked.2 with
       hourlyRequestTimestamps := checked.2.hourlyRequestTimestamps ++ [now]
       dailyRequestTimestamps := checked.2.dailyRequestTimestamps ++ [now] })

/-- Run a sequence of `requestPermission` calls at the given times,
collecting the results and threading the state. -/
def runRequests (rl : RateLimiter) (times : List Int) :
    List RequestPermissionResult × RateLimiter :=
  match times with
  | [] => ([], rl)
  | t :: ts =>
    let step := requestPermission rl t
    let rest := runRequests step.2 ts
    (step.1 :: rest.1, rest.2)

/-- Iterate the state change of `checkThresholds` `k` times at a fixed
current time. -/
def checkTimes (rl : RateLimiter) (now : Int) : Nat → RateLimiter
  | 0 => rl
  | k + 1 => (checkThresholds (checkTimes rl now k) now).2

/-! ### Helper lemmas about the rate limiter state functions -/

theorem cleanup_hourlyLimit (rl : RateLimiter) (now : Int) :
    (cleanupTimestamps rl now).hourlyLimit = rl.hourlyLimit := rfl

theorem cleanup_dailyLimit (rl : RateLimiter) (now : Int) :
    (cleanupTimestamps rl now).dailyLimit = rl.dailyLimit := rfl

theorem cleanup_hourly (rl : RateLimiter) (now : Int) :
    (cleanupTimestamps rl now).hourlyRequestTimestamps =
    rl.hourlyRequestTimestamps.filter (fun ts => decide (now - 60 * 60 * 1000 < ts)) := rfl

theorem cleanup_daily (rl : RateLimiter) (now : Int) :
    (cleanupTimestamps rl now).dailyRequestTimestamps =
    rl.dailyRequestTimestamps.filter (fun ts => decide (now - 24 * 60 * 60 * 1000 < ts)) := rfl

/-- Pruning twice at the same time is the same as pruning once. -/
theorem cleanup_cleanup (rl : RateLimiter) (now : Int) :
    cleanupTimestamps (cleanupTimestamps rl now) now = cleanupTimestamps rl now := by
  unfold cleanupTimestamps
  simp only [RateLimiter.mk.injEq, true_and, and_true]
  constructor <;>
    exact List.filter_eq_self.mpr (fun a ha => (List.mem_filter.mp ha).2)

/-- Lemma: `requestPermission` only looks at the pruned state: running it on an
already-pruned state gives the same answer. -/
theorem requestPermission_cleanup (rl : RateLimiter) (now : Int) :
    requestPermission (cleanupTimestamps rl now) now = requestPermission rl now := by
  unfold requestPermission
  rw [cleanup_cleanup]

/-- Lemma: `checkThresholds` only looks at the pruned state as well. -/
theorem checkThresholds_cleanup (rl : RateLimiter) (now : Int) :
    checkThresholds (cleanupTimestamps rl now) now = checkThresholds rl now := by
  unfold checkThresholds
  rw [cleanup_cleanup]

/-! ### C1: denial results -/

/-- C1. For every limiter state (with the logs ordered oldest-first, as
insertion order guarantees) in which the pruned hourly count is at least the
hourly limit and the pruned hourly log is non-empty, `requestPermission`
returns `allowed = false` with `delayMs = max 0 (oldest + 3600000 - now) + 100`
and the warning string `"Hourly rate limit exceeded (count/limit)."`, where
`oldest` heads the pruned hourly log and is indeed its least element; the
analogous statement with the `86400000` ms window holds when the hourly limit
is not reached but the pruned daily count is at least the daily limit. -/
theorem claim1_denial_results (rl : RateLimiter) (now : Int)
    (hs : rl.hourlyRequestTimestamps.Sorted (· ≤ ·))
    (ds : rl.dailyRequestTimestamps.Sorted (· ≤ ·)) :
    (∀ oldest rest,
      (cleanupTimestamps rl now).hourlyRequestTimestamps = oldest :: rest →
      rl.hourlyLimit ≤ (oldest :: rest).length →
      ((requestPermission rl now).1 =
        { allowed := false
          delayMs := some (max 0 (oldest + 3600000 - now) + 100)
          warning := some ("Hourly rate limit exceeded (" ++
            toString (oldest :: rest).length ++ "/" ++ toString rl.hourlyLimit ++ ").") } ∧
        ∀ ts ∈ (cleanupTimestamps rl now).hourlyRequestTimestamps, oldest ≤ ts))
    ∧ (∀ oldest rest,
      (cleanupTimestamps rl now).dailyRequestTimestamps = oldest :: rest →
      (cleanupTimestamps rl now).hourlyRequestTimestamps.length < rl.hourlyLimit →
      rl.dailyLimit ≤ (oldest :: rest).length →
      ((requestPermission rl now).1 =
        { allowed := false
          delayMs := some (max 0 (oldest + 86400000 - now) + 100)
          warning := some ("Daily rate limit exceeded (" ++
            toString (oldest :: rest).length ++ "/" ++ toString rl.dailyLimit ++ ").") } ∧
        ∀ ts ∈ (cleanupTimestamps rl now).dailyRequestTimestamps, oldest ≤ ts)) := by
  constructor
  · intro oldest rest hEq hLim
    constructor
    · simp only [requestPermission, calculateDelay, cleanup_hourlyLimit]
      rw [hEq, if_pos hLim]
      norm_num
    · intro ts hts
      rw [hEq] at hts
      have hsorted : (oldest :: rest).Sorted (· ≤ ·) := by
        rw [← hEq, cleanup_hourly]
        exact hs.filter _
      rcases List.mem_cons.mp hts with h | h
      · exact h ▸ le_refl _
      · exact List.rel_of_sorted_cons hsorted ts h
  · intro oldest rest hEq hHourly hLim
    constructor
    · simp only [requestPermission, calculateDelay, cleanup_hourlyLimit, cleanup_dailyLimit]
      rw [if_neg (not_le.mpr hHourly), hEq, if_pos hLim]
      norm_num
    · intro ts hts
      rw [hEq] at hts
      have hsorted : (oldest :: rest).Sorted (· ≤ ·) := by
        rw [← hEq, cleanup_daily]
        exact ds.filter _
      rcases List.mem_cons.mp hts with h | h
      · exact h ▸ le_refl _
      · exact List.rel_of_sorted_cons hsorted ts h

/-! ### C2/C3: admitted sequences -/

/-- When neither pruned count has reached its limit, `requestPermission`
admits the call: no delay, the pre-recording warning, and `now` appended
to both pruned logs. -/
theorem requestPermission_allowed (rl : RateLimiter) (now : Int)
    (h1 : (cleanupTimestamps rl now).hourlyRequestTimestamps.length < rl.hourlyLimit)
    (h2 : (cleanupTimestamps rl now).dailyRequestTimestamps.length < rl.dailyLimit) :
    requestPermission rl now =
      ({ allowed := true, delayMs := none,
         warning := checkThresholdsWarning (cleanupTimestamps rl now) },
       { rl with
         hourlyRequestTimestamps := (cleanupTimestamps rl now).hourlyRequestTimestamps ++ [now]
         dailyRequestTimestamps := (cleanupTimestamps rl now).dailyRequestTimestamps ++ [now] }) := by
  simp only [requestPermission, checkThresholds, cleanup_hourlyLimit, cleanup_dailyLimit]
  rw [if_neg (not_le.mpr h1), if_neg (not_le.mpr h2), cleanup_cleanup]
  rfl

/-- Auxiliary induction for C2: starting from a state whose two logs both
hold the same list `prev` of timestamps inside the hour window starting at
`T`, a further sequence of calls inside that window is fully admitted as
long as the total count stays within both limits. -/
theorem runRequests_all_allowed (hl dl : Nat) (wh wd : Rat)
    (prev times : List Int) (T : Int)
    (hprev : ∀ x ∈ prev, T ≤ x ∧ x < T + 3600000)
    (htimes : ∀ t ∈ times, T ≤ t ∧ t < T + 3600000)
    (hhl : prev.length + times.length ≤ hl)
    (hdl : prev.length + times.length ≤ dl) :
    ∀ r ∈ (runRequests
      { hourlyLimit := hl, dailyLimit := dl
        warningThresholdHourly := wh, warningThresholdDaily := wd
        hourlyRequestTimestamps := prev, dailyRequestTimestamps := prev } times).1,
      r.allowed = true ∧ r.delayMs = none := by
  induction times generalizing prev with
  | nil => simp [runRequests]
  | cons t ts ih =>
    have htmem := htimes t (List.mem_cons_self t ts)
    have hfh : prev.filter (fun x => decide (t - 60 * 60 * 1000 < x)) = prev :=
      List.filter_eq_self.mpr (fun x hx => decide_eq_true (by
        have := hprev x hx
        omega))
    have hfd : prev.filter (fun x => decide (t - 24 * 60 * 60 * 1000 < x)) = prev :=
      List.filter_eq_self.mpr (fun x hx => decide_eq_true (by
        have := hprev x hx
        omega))
    have hclean : cleanupTimestamps
        { hourlyLimit := hl, dailyLimit := dl
          warningThresholdHourly := wh, warningThresholdDaily := wd
          hourlyRequestTimestamps := prev, dailyRequestTimestamps := prev } t =
        { hourlyLimit := hl, dailyLimit := dl
          warningThresholdHourly := wh, warningThresholdDaily := wd
          hourlyRequestTimestamps := prev, dailyRequestTimestamps := prev } := by
      simp only [cleanupTimestamps, hfh, hfd]
    have hhl' : prev.length + ts.length + 1 ≤ hl := by simpa [Nat.add_assoc] using hhl
    have hdl' : prev.length + ts.length + 1 ≤ dl := by simpa [Nat.add_assoc] using hdl
    have hstep := requestPermission_allowed
      { hourlyLimit := hl, dailyLimit := dl
        warningThresholdHourly := wh, warningThresholdDaily := wd
        hourlyRequestTimestamps := prev, dailyRequestTimestamps := prev } t
      (by rw [hclean]; show prev.length < hl; omega)
      (by rw [hclean]; show prev.length < dl; omega)
    intro r hr
    rw [runRequests] at hr
    simp only [hstep, hclean] at hr
    rcases List.mem_cons.mp hr with h | h
    · subst h
      exact ⟨rfl, rfl⟩
    · refine ih (prev ++ [t]) ?_ ?_ ?_ ?_ r h
      · intro x hx
        rcases List.mem_append.mp hx with hx | hx
        · exact hprev x hx
        · simp only [List.mem_singleton] at hx
          subst hx
          exact htmem
      · exact fun u hu => htimes u (List.mem_cons_of_mem t hu)
      · show (prev ++ [t]).length + ts.length ≤ hl
        simp only [List.length_append, List.length_singleton]
        omega
      · show (prev ++ [t]).length + ts.length ≤ dl
        simp only [List.length_append, List.length_singleton]
        omega

/-- C2 (amended). Starting from a fresh limiter, for every sequence of
`N` `requestPermission()` calls within a single hour with `N` not exceeding
the hourly limit *nor the daily limit*, every call returns `allowed = true`
with `delayMs` absent. (The original claim omits the daily-limit bound; see
the counterexample.) -/
theorem claim2_within_hour_no_delay (opts : RateLimiterOptions)
    (times : List Int) (T : Int)
    (ht : ∀ t ∈ times, T ≤ t ∧ t < T + 3600000)
    (h1 : times.length ≤ opts.requestsPerHour)
    (h2 : times.length ≤ opts.requestsPerDay) :
    (runRequests (RateLimiter.create opts) times).1.all
      (fun r => r.allowed && r.delayMs.isNone) = true := by
  rw [List.all_eq_true]
  intro r hr
  have := runRequests_all_allowed opts.requestsPerHour opts.requestsPerDay
    ((opts.requestsPerHour : Rat) *
      (1 - opts.warningThresholdPercent.getD DEFAULT_WARNING_THRESHOLD))
    ((opts.requestsPerDay : Rat) *
      (1 - opts.warningThresholdPercent.getD DEFAULT_WARNING_THRESHOLD))
    [] times T (by simp) ht (by simpa using h1) (by simpa using h2) r hr
  simp [this.1, this.2]

/-- Witness for C2 (amended): two calls within the hour on a `2/2` limiter
are both admitted with no delay. -/
theorem claim2_within_hour_no_delay_witness :
    (runRequests (RateLimiter.create ⟨2, 2, none⟩) [0, 1]).1.all
      (fun r => r.allowed && r.delayMs.isNone) = true :=
  claim2_within_hour_no_delay ⟨2, 2, none⟩ [0, 1] 0 (by decide) (by decide) (by decide)

/-- C2, counterexample. The claim as stated fails when the daily limit
is below `N`: with `requestsPerHour = 5` and `requestsPerDay = 1`, two calls
at the same instant (so `N = 2 ≤ 5 = hourlyLimit`) yield `allowed = true`
then `allowed = false`, refuting “every one of the N calls returns
allowed:true”. -/
theorem claim2_counterexample :
    (runRequests (RateLimiter.create ⟨5, 1, none⟩) [0, 0]).1.map
      (fun r => r.allowed) = [true, false] := by decide

/-- Three calls at the same timestamp `t` against a `2`-per-hour,
`100`-per-day limiter with empty logs: admitted, admitted, denied with
delay `3600100`, for any warning-threshold configuration. -/
theorem runRequests_three (t : Int) (wh wd : Rat) :
    (runRequests ⟨2, 100, wh, wd, [], []⟩ [t, t, t]).1.map (fun r => r.allowed) =
      [true, true, false] ∧
    (runRequests ⟨2, 100, wh, wd, [], []⟩ [t, t, t]).1.map (fun r => r.delayMs) =
      [none, none, some 3600100] := by
  have hc1 : cleanupTimestamps ⟨2, 100, wh, wd, [], []⟩ t = ⟨2, 100, wh, wd, [], []⟩ := by
    simp [cleanupTimestamps]
  have hp1 := requestPermission_allowed ⟨2, 100, wh, wd, [], []⟩ t
    (by rw [hc1]; show (0 : Nat) < 2; omega) (by rw [hc1]; show (0 : Nat) < 100; omega)
  rw [hc1] at hp1
  simp only [List.nil_append] at hp1
  have hf1 : ([t] : List Int).filter (fun x => decide (t - 60 * 60 * 1000 < x)) = [t] := by
    simp [show t - 60 * 60 * 1000 < t from by omega]
  have hf1d : ([t] : List Int).filter (fun x => decide (t - 24 * 60 * 60 * 1000 < x)) = [t] := by
    simp [show t - 24 * 60 * 60 * 1000 < t from by omega]
  have hc2 : cleanupTimestamps ⟨2, 100, wh, wd, [t], [t]⟩ t = ⟨2, 100, wh, wd, [t], [t]⟩ := by
    simp [cleanupTimestamps, hf1, hf1d]
  have hp2 := requestPermission_allowed ⟨2, 100, wh, wd, [t], [t]⟩ t
    (by rw [hc2]; show (1 : Nat) < 2; omega) (by rw [hc2]; show (1 : Nat) < 100; omega)
  rw [hc2] at hp2
  have hf2 : ([t, t] : List Int).filter (fun x => decide (t - 60 * 60 * 1000 < x)) = [t, t] := by
    simp [show t - 60 * 60 * 1000 < t from by omega]
  have hf2d : ([t, t] : List Int).filter (fun x => decide (t - 24 * 60 * 60 * 1000 < x)) = [t, t] := by
    simp [show t - 24 * 60 * 60 * 1000 < t from by omega]
  have hc3 : cleanupTimestamps ⟨2, 100, wh, wd, [t, t], [t, t]⟩ t
      = ⟨2, 100, wh, wd, [t, t], [t, t]⟩ := by
    simp [cleanupTimestamps, hf2, hf2d]
  have hdelay : calculateDelay ⟨2, 100, wh, wd, [t, t], [t, t]⟩ LimitType.hourly t = 3600100 := by
    simp only [calculateDelay]
    omega
  have hp3 : (requestPermission ⟨2, 100, wh, wd, [t, t], [t, t]⟩ t).1.allowed = false ∧
      (requestPermission ⟨2, 100, wh, wd, [t, t], [t, t]⟩ t).1.delayMs = some 3600100 := by
    simp only [requestPermission, hc3, hdelay]
    rw [if_pos (by norm_num : (⟨2, 100, wh, wd, [t, t], [t, t]⟩ : RateLimiter).hourlyLimit ≤
      (⟨2, 100, wh, wd, [t, t], [t, t]⟩ : RateLimiter).hourlyRequestTimestamps.length)]
    exact ⟨rfl, rfl⟩
  simp only [runRequests, hp1, hp2, List.map_cons, List.map_nil]
  simp [hp3.1, hp3.2]

/-- C3. With `requestsPerHour = 2` and `requestsPerDay = 100`, starting
from an empty call log, three consecutive `requestPermission()` calls at the
same timestamp return `allowed = true, true, false`, and the third carries
the strictly positive `delayMs = 3600100`. -/
theorem claim3_two_per_hour_scenario (t : Int) :
    (runRequests (RateLimiter.create ⟨2, 100, none⟩) [t, t, t]).1.map (fun r => r.allowed) =
      [true, true, false] ∧
    (runRequests (RateLimiter.create ⟨2, 100, none⟩) [t, t, t]).1.map (fun r => r.delayMs) =
      [none, none, some 3600100] ∧
    (0 : Int) < 3600100 :=
  ⟨(runRequests_three t _ _).1, (runRequests_three t _ _).2, by omega⟩

/-! ### C4: pruning correctness -/

/-- C4. A timestamp recorded at time `T` is excluded from the hourly
window at any check performed at `now ≥ T + 3600000` and from the daily
window at any `now ≥ T + 86400000`: it survives neither the pruning both
`checkThresholds` and `requestPermission` perform first, nor the pruned
state `checkThresholds` leaves behind. -/
theorem claim4_pruning_excludes (rl : RateLimiter) (T now : Int) :
    (T + 3600000 ≤ now →
      T ∉ (cleanupTimestamps rl now).hourlyRequestTimestamps ∧
      T ∉ (checkThresholds rl now).2.hourlyRequestTimestamps) ∧
    (T + 86400000 ≤ now →
      T ∉ (cleanupTimestamps rl now).dailyRequestTimestamps ∧
      T ∉ (checkThresholds rl now).2.dailyRequestTimestamps) := by
  have hh : T + 3600000 ≤ now →
      T ∉ (cleanupTimestamps rl now).hourlyRequestTimestamps := by
    intro h hmem
    rw [cleanup_hourly] at hmem
    have := (List.mem_filter.mp hmem).2
    simp only [decide_eq_true_eq] at this
    omega
  have hd : T + 86400000 ≤ now →
      T ∉ (cleanupTimestamps rl now).dailyRequestTimestamps := by
    intro h hmem
    rw [cleanup_daily] at hmem
    have := (List.mem_filter.mp hmem).2
    simp only [decide_eq_true_eq] at this
    omega
  exact ⟨fun h => ⟨hh h, hh h⟩, fun h => ⟨hd h, hd h⟩⟩

/-- Concrete limiter state used to witness C4. -/
def rlC4 : RateLimiter :=
  { hourlyLimit := 10, dailyLimit := 10
    warningThresholdHourly := 9, warningThresholdDaily := 9
    hourlyRequestTimestamps := [0], dailyRequestTimestamps := [0] }

/-- Witness for C4: the timestamp `0` is gone from both windows at
`now = 86400000`. -/
theorem claim4_pruning_excludes_witness :
    ((0 : Int) ∉ (cleanupTimestamps rlC4 86400000).hourlyRequestTimestamps ∧
      (0 : Int) ∉ (checkThresholds rlC4 86400000).2.hourlyRequestTimestamps) ∧
    ((0 : Int) ∉ (cleanupTimestamps rlC4 86400000).dailyRequestTimestamps ∧
      (0 : Int) ∉ (checkThresholds rlC4 86400000).2.dailyRequestTimestamps) :=
  ⟨(claim4_pruning_excludes rlC4 0 86400000).1 (by omega),
   (claim4_pruning_excludes rlC4 0 86400000).2 (by omega)⟩

/-! ### C5: checkThresholds consumes no quota and is idempotent -/

/-- C5. The operation `checkThresholds` is observationally pure with respect to quota:
at a fixed current time, any number of `checkThresholds` calls leaves a
subsequent `requestPermission` with exactly the same result and final state,
and two immediately successive `checkThresholds` calls return the same
warning (or both none). -/
theorem claim5_checkThresholds_pure (rl : RateLimiter) (now : Int) (k : Nat) :
    requestPermission (checkTimes rl now k) now = requestPermission rl now ∧
    (checkThresholds (checkThresholds rl now).2 now).1 = (checkThresholds rl now).1 := by
  constructor
  · induction k with
    | zero => rfl
    | succ n ih =>
      calc requestPermission (checkTimes rl now (n + 1)) now
          = requestPermission (cleanupTimestamps (checkTimes rl now n) now) now := rfl
        _ = requestPermission (checkTimes rl now n) now := requestPermission_cleanup _ now
        _ = requestPermission rl now := ih
  · show (checkThresholds (cleanupTimestamps rl now) now).1 = _
    rw [checkThresholds_cleanup]

/-! ### C6: warning threshold schedule -/

/-- Evaluated form of the limiter configured `{requestsPerHour: 100,
requestsPerDay: 48000, warningThresholdPercent: 0.1}`: the warning
thresholds are `90` and `43200`. -/
theorem create_100_48000 :
    RateLimiter.create ⟨100, 48000, some (1 / 10)⟩ =
    { hourlyLimit := 100, dailyLimit := 48000
      warningThresholdHourly := 90, warningThresholdDaily := 43200
      hourlyRequestTimestamps := [], dailyRequestTimestamps := [] } := by
  simp only [RateLimiter.create, RateLimiter.mk.injEq, Option.getD_some]
  norm_num

/-- C6, counterexample. With `warningThresholdPercent = 0.1` and
`hourlyLimit = 100`, the first 90 admitted calls within the hour — in
particular the 90th — return **no** warning at all: the warning is computed
from the pre-recording count (89 on the 90th call), so the 90th call cannot
return a string containing "Approaching hourly rate limit (90/100)". -/
theorem claim6_counterexample :
    ((runRequests (RateLimiter.create ⟨100, 48000, some (1 / 10)⟩)
      (List.replicate 101 0)).1.map (fun r => r.warning)).take 90 =
      List.replicate 90 none := by
  rw [create_100_48000]
  decide

/-- C6 (amended). With `warningThresholdPercent = 0.1`,
`hourlyLimit = 100` and `dailyLimit = 48000`, for 101 calls at one instant:
the first 100 are admitted and the 101st is denied; the first 90 admitted
calls carry no warning, the **91st** through 100th admitted calls carry
"Approaching hourly rate limit (k/100)." for `k = 90 … 99` (the count
recorded *before* the call), and the attempted 101st request returns the
"exceeded" wording "Hourly rate limit exceeded (100/100).". -/
theorem claim6_warning_schedule :
    ((runRequests (RateLimiter.create ⟨100, 48000, some (1 / 10)⟩)
      (List.replicate 101 0)).1.map (fun r => r.allowed) =
      List.replicate 100 true ++ [false]) ∧
    ((runRequests (RateLimiter.create ⟨100, 48000, some (1 / 10)⟩)
      (List.replicate 101 0)).1.map (fun r => r.warning) =
      List.replicate 90 none ++
        (List.range 10).map (fun i =>
          some ("Approaching hourly rate limit (" ++ toString (90 + i) ++ "/100).")) ++
        [some "Hourly rate limit exceeded (100/100)."]) := by
  rw [create_100_48000]
  constructor <;> decide

/-! ### C9: denied requests consume no quota -/

/-- C9. Whenever `requestPermission` denies a request, it appends no
timestamp to either log: the post-call state is exactly the pruned pre-call
state, so both post-call counts equal the pruned pre-call counts. -/
theorem claim9_denied_consumes_nothing (rl : RateLimiter) (now : Int)
    (h : (requestPermission rl now).1.allowed = false) :
    (requestPermission rl now).2 = cleanupTimestamps rl now ∧
    (requestPermission rl now).2.hourlyRequestTimestamps.length =
      (cleanupTimestamps rl now).hourlyRequestTimestamps.length ∧
    (requestPermission rl now).2.dailyRequestTimestamps.length =
      (cleanupTimestamps rl now).dailyRequestTimestamps.length := by
  have hstate : (requestPermission rl now).2 = cleanupTimestamps rl now := by
    by_cases h1 : rl.hourlyLimit ≤ (cleanupTimestamps rl now).hourlyRequestTimestamps.length
    · simp only [requestPermission, cleanup_hourlyLimit]
      rw [if_pos h1]
    · by_cases h2 : rl.dailyLimit ≤ (cleanupTimestamps rl now).dailyRequestTimestamps.length
      · simp only [requestPermission, cleanup_hourlyLimit, cleanup_dailyLimit]
        rw [if_neg h1, if_pos h2]
      · exfalso
        rw [requestPermission_allowed rl now (not_le.mp h1) (not_le.mp h2)] at h
        simp at h
  exact ⟨hstate, by rw [hstate], by rw [hstate]⟩

/-- Concrete limiter state used to witness C9: both limits are `0`, so the
request is denied. -/
def rlC9 : RateLimiter :=
  { hourlyLimit := 0, dailyLimit := 0
    warningThresholdHourly := 0, warningThresholdDaily := 0
    hourlyRequestTimestamps := [], dailyRequestTimestamps := [] }

/-- Witness for C9 at a concrete denied request. -/
theorem claim9_denied_consumes_nothing_witness :
    (requestPermission rlC9 7).2 = cleanupTimestamps rlC9 7 ∧
    (requestPermission rlC9 7).2.hourlyRequestTimestamps.length =
      (cleanupTimestamps rlC9 7).hourlyRequestTimestamps.length ∧
    (requestPermission rlC9 7).2.dailyRequestTimestamps.length =
      (cleanupTimestamps rlC9 7).dailyRequestTimestamps.length :=
  claim9_denied_consumes_nothing rlC9 7 (by decide)

/-! ### C10: the hourly log is contained in the daily log -/

/-- Limiter states reachable from a freshly constructed limiter by any
sequence of `requestPermission` / `checkThresholds` calls at arbitrary
times. -/
inductive Reachable (opts : RateLimiterOptions) : RateLimiter → Prop where
  | init : Reachable opts (RateLimiter.create opts)
  | request (rl : RateLimiter) (now : Int) : Reachable opts rl →
      Reachable opts (requestPermission rl now).2
  | check (rl : RateLimiter) (now : Int) : Reachable opts rl →
      Reachable opts (checkThresholds rl now).2

/-- Pruning preserves containment of the hourly log in the daily log,
because the hourly window is contained in the daily window. -/
theorem sublist_cleanup {rl : RateLimiter}
    (h : rl.hourlyRequestTimestamps.Sublist rl.dailyRequestTimestamps) (now : Int) :
    (cleanupTimestamps rl now).hourlyRequestTimestamps.Sublist
      (cleanupTimestamps rl now).dailyRequestTimestamps := by
  rw [cleanup_hourly, cleanup_daily]
  refine (h.filter _).trans (List.monotone_filter_right _ ?_)
  intro a ha
  simp only [decide_eq_true_eq] at ha ⊢
  omega

/-- Every reachable state keeps the hourly log a sublist of the daily log. -/
theorem reachable_sublist (opts : RateLimiterOptions) (rl : RateLimiter)
    (h : Reachable opts rl) :
    rl.hourlyRequestTimestamps.Sublist rl.dailyRequestTimestamps := by
  induction h with
  | init => exact List.Sublist.refl []
  | request rl now hr ih =>
    by_cases h1 : rl.hourlyLimit ≤ (cleanupTimestamps rl now).hourlyRequestTimestamps.length
    · have : (requestPermission rl now).2 = cleanupTimestamps rl now := by
        simp only [requestPermission, cleanup_hourlyLimit]
        rw [if_pos h1]
      rw [this]
      exact sublist_cleanup ih now
    · by_cases h2 : rl.dailyLimit ≤ (cleanupTimestamps rl now).dailyRequestTimestamps.length
      · have : (requestPermission rl now).2 = cleanupTimestamps rl now := by
          simp only [requestPermission, cleanup_hourlyLimit, cleanup_dailyLimit]
          rw [if_neg h1, if_pos h2]
        rw [this]
        exact sublist_cleanup ih now
      · rw [requestPermission_allowed rl now (not_le.mp h1) (not_le.mp h2)]
        exact List.Sublist.append (sublist_cleanup ih now) (List.Sublist.refl [now])
  | check rl now hr ih =>
    exact sublist_cleanup ih now

/-- C10. In every state reachable by operating the limiter, the hourly
timestamp list is a sublist (hence a subset) of the daily timestamp list,
its count never exceeds the daily count, and the pruned hourly count at any
check time never exceeds the pruned daily count. -/
theorem claim10_hourly_within_daily (opts : RateLimiterOptions) (rl : RateLimiter)
    (h : Reachable opts rl) :
    rl.hourlyRequestTimestamps.Sublist rl.dailyRequestTimestamps ∧
    (∀ x ∈ rl.hourlyRequestTimestamps, x ∈ rl.dailyRequestTimestamps) ∧
    rl.hourlyRequestTimestamps.length ≤ rl.dailyRequestTimestamps.length ∧
    ∀ now : Int,
      (cleanupTimestamps rl now).hourlyRequestTimestamps.length ≤
        (cleanupTimestamps rl now).dailyRequestTimestamps.length := by
  have hs := reachable_sublist opts rl h
  exact ⟨hs, fun x hx => hs.subset hx, hs.length_le,
    fun now => (sublist_cleanup hs now).length_le⟩

/-- Concrete reachable state used to witness C10: one admitted request. -/
def rlC10 : RateLimiter := (requestPermission (RateLimiter.create ⟨2, 100, none⟩) 0).2

/-- Witness for C10 at a concrete reachable state. -/
theorem claim10_hourly_within_daily_witness :
    (cleanupTimestamps rlC10 5).hourlyRequestTimestamps.length ≤
      (cleanupTimestamps rlC10 5).dailyRequestTimestamps.length :=
  (claim10_hourly_within_daily ⟨2, 100, none⟩ rlC10
    (Reachable.request _ 0 Reachable.init)).2.2.2 5

/-! ### Embedding of `src/lib/api.ts` (portfolio optimization orchestration)

JavaScript floating-point numbers are modelled as `Rat`; `Math.random()`
draws are modelled as explicit streams `Nat → Rat` of values (one stream per
generator); `x.toFixed(2)` followed by `parseFloat` is modelled as exact
rounding to a multiple of `1/100`. -/

/-- Model of `parseFloat(x.toFixed(2))`: round to the nearest hundredth. -/
def toFixed2 (x : Rat) : Rat := (round (x * 100) : Rat) / 100

/-- One row of a portfolio allocation (`AssetAllocation`). -/
structure AssetAllocation where
  asset : String
  allocation : Rat
deriving Repr, DecidableEq

/-- Record `PortfolioMetrics`. -/
structure PortfolioMetrics where
  expectedReturn : Rat
  risk : Rat
  sharpeRatio : Rat
deriving Repr, DecidableEq

/-- Record `RiskReturnChartData` (the return field is a keyword, hence `ret`). -/
structure RiskReturnChartData where
  risk : Rat
  ret : Rat
deriving Repr, DecidableEq

/-- Record `OptimizationResult`. -/
structure OptimizationResult where
  allocations : List AssetAllocation
  metrics : PortfolioMetrics
  efficientFrontierData : Option (List RiskReturnChartData)
deriving Repr, DecidableEq

/-- Record `OptimizationApiResponse`. -/
structure OptimizationApiResponse where
  results : OptimizationResult
  warning : Option String
deriving Repr, DecidableEq

/-- The parameters `optimizePortfolio` consumes (only the fields it reads:
`uploadedFileNames`, `filters.interval`, `method`). -/
structure OptimizationParams where
  uploadedFileNames : List String
  interval : String
  method : String
deriving Repr, DecidableEq

/-- Constant `MOCK_ASSETS` from `api.ts`. -/
def MOCK_ASSETS : List String :=
  ["AAPL", "MSFT", "GOOGL", "AMZN", "TSLA", "NVDA", "BRK-A", "JPM", "V", "JNJ"]

/-- The loop of `generateRandomAllocations`: for each asset except the last,
draw `rand i` in `[0,1)` and allocate `rand i * (remaining / assetsLeft)`
rounded to two decimals, subtracting the *unrounded* amount from the
remaining percentage; the last asset gets the remaining percentage rounded
to two decimals. -/
def allocLoop (rand : Nat → Rat) : List String → Nat → Rat → List AssetAllocation
  | [], _, _ => []
  | [asset], _, remainingPercentage => [⟨asset, toFixed2 remainingPercentage⟩]
  | asset :: rest, i, remainingPercentage =>
    let randomAlloc := rand i * (remainingPercentage / (((asset :: rest).length : Nat) : Rat))
    ⟨asset, toFixed2 randomAlloc⟩ :: allocLoop rand rest (i + 1) (remainingPercentage - randomAlloc)

/-- Function `generateRandomAllocations`: run the loop over the first `numAssets`
mock assets starting from 100 %, then sort descending by allocation. -/
def generateRandomAllocations (rand : Nat → Rat) (numAssets : Nat) : List AssetAllocation :=
  (allocLoop rand (MOCK_ASSETS.take numAssets) 0 100).mergeSort
    (fun a b => decide (b.allocation ≤ a.allocation))

/-- Function `generateRandomMetrics`. -/
def generateRandomMetrics (rand : Nat → Rat) : PortfolioMetrics :=
  { expectedReturn := toFixed2 (rand 0 * 15 + 5)
    risk := toFixed2 (rand 1 * 20 + 5)
    sharpeRatio := toFixed2 (rand 2 * (3 / 2) + 1 / 2) }

/-- Function `generateEfficientFrontier`: 50 random points, sorted ascending by
risk. -/
def generateEfficientFrontier (rand : Nat → Rat) : List RiskReturnChartData :=
  ((List.range 50).map (fun i =>
    let risk := rand (3 * i) * 20 + 5
    let ret := risk / 20 * (rand (3 * i + 1) * 10 + 5) + rand (3 * i + 2) * 5
    ({ risk := toFixed2 risk, ret := toFixed2 ret } : RiskReturnChartData))).mergeSort
    (fun a b => decide (a.risk ≤ b.risk))

/-- Function `tickersToFetch` (line 70 of `api.ts`): the uploaded file names, or the
first five mock assets when none were uploaded. -/
def tickersToFetch (params : OptimizationParams) : List String :=
  if 0 < params.uploadedFileNames.length then params.uploadedFileNames
  else MOCK_ASSETS.take 5

/-- Outcome of one call of the (rate-limited) historical-data fetch: a data
series, or a thrown error carrying a message. -/
inductive FetchOutcome where
  | ok (series : List Rat)
  | thrown (msg : String)
deriving Repr, DecidableEq

/-- The fetch loop of `optimizePortfolio` inside its `try` block: fetch each
ticker in order, keeping non-empty series; a thrown error aborts the rest of
the loop (earlier successes are retained, as the mutated `allStockData` is)
and is reported in the second component. -/
def fetchLoop (fetch : String → String → FetchOutcome) (interval : String) :
    List String → List (String × List Rat) × Option String
  | [] => ([], none)
  | ticker :: rest =>
    match fetch ticker interval with
    | FetchOutcome.thrown msg => ([], some msg)
    | FetchOutcome.ok series =>
      let restResult := fetchLoop fetch interval rest
      (if 0 < series.length then (ticker, series) :: restResult.1 else restResult.1,
       restResult.2)

/-- Prefix test on character lists (for `String.includes`). -/
def charsMatch : List Char → List Char → Bool
  | [], _ => true
  | _ :: _, [] => false
  | p :: ps, c :: cs => p == c && charsMatch ps cs

/-- Substring search on character lists (for `String.includes`). -/
def charsContain (pat : List Char) : List Char → Bool
  | [] => charsMatch pat []
  | c :: cs => charsMatch pat (c :: cs) || charsContain pat cs

/-- Model of the JavaScript substring test (String.includes). -/
def stringContains (s pat : String) : Bool := charsContain pat.toList s.toList

/-- The Equal Weighting branch of `optimizePortfolio`: overwrite every
allocation with `100 / numAssets` rounded to two decimals, then overwrite
the last one with `100 - (sum of the others)` rounded to two decimals. -/
def equalWeightAdjust (allocations : List AssetAllocation) : List AssetAllocation :=
  let numAssets := allocations.length
  if 0 < numAssets then
    let equalAllocation : Rat := 100 / (numAssets : Rat)
    let allocations2 := allocations.map (fun a => { a with allocation := toFixed2 equalAllocation })
    let s := (allocations2.dropLast.map (fun a => a.allocation)).sum
    match allocations2.getLast? with
    | some lastA => allocations2.dropLast ++ [{ lastA with allocation := toFixed2 (100 - s) }]
    | none => []
  else []

/-- The result-generation block of `optimizePortfolio` (lines 125–173 of
`api.ts`). -/
def resultGeneration (method : String) (allStockData : List (String × List Rat))
    (tickers : List String) (dataFetchedSuccessfully : Bool)
    (randAlloc randMetrics randFrontier : Nat → Rat) : OptimizationResult :=
  if dataFetchedSuccessfully then
    let numAssets := if allStockData.length = 0 then tickers.length else allStockData.length
    let allocations := generateRandomAllocations randAlloc numAssets
    let metrics := generateRandomMetrics randMetrics
    if method = "Monte Carlo Simulation" then
      { allocations := allocations, metrics := metrics
        efficientFrontierData := some (generateEfficientFrontier randFrontier) }
    else if method = "Equal Weighting" then
      { allocations := equalWeightAdjust allocations, metrics := metrics
        efficientFrontierData := none }
    else
      { allocations := allocations, metrics := metrics, efficientFrontierData := none }
  else
    { allocations := generateRandomAllocations randAlloc tickers.length
      metrics := generateRandomMetrics randMetrics
      efficientFrontierData :=
        if method = "Monte Carlo Simulation" then some (generateEfficientFrontier randFrontier)
        else none }

/-- Function `optimizePortfolio`.  The current time, the shared limiter and the
real network are external, so the function is parameterized by the observed
behaviour of the (rate-limited) fetch for each ticker and by the warning the
post-loop `checkThresholds()` call reports.  The `Except` codomain models
the possibility of an uncaught exception escaping to the caller; the body
catches every fetch error, so only `Except.ok` is ever produced. -/
def optimizePortfolio (params : OptimizationParams)
    (fetch : String → String → FetchOutcome) (postLoopWarning : Option String)
    (randAlloc randMetrics randFrontier : Nat → Rat) :
    Except String OptimizationApiResponse :=
  let tickers := tickersToFetch params
  let fetchAttempt := fetchLoop fetch params.interval tickers
  let allStockData := fetchAttempt.1
  let rateLimitWarning : Option String :=
    match fetchAttempt.2 with
    | none => postLoopWarning
    | some msg => if stringContains msg "Rate limit reached" then some msg else none
  let dataFetchedSuccessfully : Bool :=
    match fetchAttempt.2 with
    | none => if allStockData.length = 0 ∧ 0 < tickers.length then false else true
    | some _ => false
  Except.ok
    { results := resultGeneration params.method allStockData tickers
        dataFetchedSuccessfully randAlloc randMetrics randFrontier
      warning := rateLimitWarning }

/-! ### C7: optimizePortfolio never fails; zero tickers do not abort -/

/-- Lemma: `tickersToFetch` never returns an empty list: with no uploads it falls
back to the first five mock assets. -/
theorem tickersToFetch_ne_nil (params : OptimizationParams) :
    tickersToFetch params ≠ [] := by
  unfold tickersToFetch
  split
  · next hpos => exact List.length_pos.mp hpos
  · decide

/-- C7 (amended). The function `optimizePortfolio` never fails: for every input and
every behaviour of the underlying fetch it returns a result object
(`Except.ok`) rather than throwing.  When zero tickers are supplied it does
*not* abort: it substitutes the five default mock tickers and proceeds to
fetch them (the zero-ticker validation happens in the UI layer before
`optimizePortfolio` is called, not inside it). -/
theorem claim7_never_fails (params : OptimizationParams)
    (fetch : String → String → FetchOutcome) (postW : Option String)
    (ra rm rf : Nat → Rat) :
    (∃ resp, optimizePortfolio params fetch postW ra rm rf = Except.ok resp) ∧
    (params.uploadedFileNames = [] →
      tickersToFetch params = MOCK_ASSETS.take 5 ∧ tickersToFetch params ≠ []) := by
  refine ⟨⟨_, rfl⟩, ?_⟩
  intro h
  have : tickersToFetch params = MOCK_ASSETS.take 5 := by
    unfold tickersToFetch
    rw [h]
    rfl
  exact ⟨this, this ▸ (by decide)⟩

/-- Parameters with zero tickers supplied, used against C7. -/
def paramsC7 : OptimizationParams :=
  { uploadedFileNames := [], interval := "daily", method := "MaxSharpe" }

/-- C7, counterexample. With zero tickers supplied and a fetch that
throws, `optimizePortfolio` does *not* abort before any fetch attempt: it
still returns a success result, and the list of tickers it proceeds to fetch
is the non-empty mock fallback — contradicting "the operation aborts
synchronously before any fetch attempt". -/
theorem claim7_counterexample :
    (optimizePortfolio paramsC7 (fun _ _ => FetchOutcome.thrown "network down") none
      (fun _ => 0) (fun _ => 0) (fun _ => 0)).isOk = true ∧
    tickersToFetch paramsC7 = ["AAPL", "MSFT", "GOOGL", "AMZN", "TSLA"] :=
  ⟨rfl, by decide⟩

/-- Witness for C7 at concrete arguments with zero tickers. -/
theorem claim7_never_fails_witness :
    tickersToFetch paramsC7 = MOCK_ASSETS.take 5 ∧ tickersToFetch paramsC7 ≠ [] :=
  (claim7_never_fails paramsC7 (fun _ _ => FetchOutcome.ok []) none
    (fun _ => 0) (fun _ => 0) (fun _ => 0)).2 rfl

/-! ### C8: allocation sums -/

/-- Rounding to two decimals moves a value by at most `1/200`. -/
theorem abs_toFixed2_sub_le (x : Rat) : |toFixed2 x - x| ≤ 1 / 200 := by
  have h := abs_sub_round (x * 100)
  rw [abs_sub_comm] at h
  have h2 : toFixed2 x - x = ((round (x * 100) : Rat) - x * 100) / 100 := by
    unfold toFixed2; ring
  rw [h2, abs_div, show |(100 : Rat)| = 100 from by norm_num]
  linarith

/-- The allocation loop produces one entry per asset. -/
theorem allocLoop_length (rand : Nat → Rat) :
    ∀ (assets : List String) (i : Nat) (r : Rat),
      (allocLoop rand assets i r).length = assets.length := by
  intro assets
  induction assets with
  | nil => intro i r; rfl
  | cons a rest ih =>
    intro i r
    cases rest with
    | nil => rfl
    | cons b rest2 => simp [allocLoop, ih]

/-- The unrounded allocations in the loop sum exactly to the remaining
percentage, so the rounded ones sum to it within `1/200` per asset. -/
theorem allocLoop_sum_close (rand : Nat → Rat) :
    ∀ (assets : List String) (i : Nat) (remaining : Rat), assets ≠ [] →
      |((allocLoop rand assets i remaining).map (fun a => a.allocation)).sum - remaining| ≤
        (assets.length : Rat) / 200 := by
  intro assets
  induction assets with
  | nil => intro i r hne; exact absurd rfl hne
  | cons a rest ih =>
    intro i remaining _
    cases rest with
    | nil =>
      simp only [allocLoop, List.map_cons, List.map_nil, List.sum_cons, List.sum_nil,
        add_zero, List.length_cons, List.length_nil]
      have := abs_toFixed2_sub_le remaining
      push_cast
      linarith
    | cons b rest2 =>
      have hih := ih (i + 1)
        (remaining - rand i * (remaining / (((a :: b :: rest2).length : Nat) : Rat)))
        (by simp)
      simp only [allocLoop, List.map_cons, List.sum_cons] at hih ⊢
      set ra := rand i * (remaining / (((a :: b :: rest2).length : Nat) : Rat)) with hra
      set S := ((allocLoop rand (b :: rest2) (i + 1) (remaining - ra)).map
        (fun a => a.allocation)).sum with hS
      have key : toFixed2 ra + S - remaining = (toFixed2 ra - ra) + (S - (remaining - ra)) := by
        ring
      calc |toFixed2 ra + S - remaining|
          = |(toFixed2 ra - ra) + (S - (remaining - ra))| := by rw [key]
        _ ≤ |toFixed2 ra - ra| + |S - (remaining - ra)| := abs_add _ _
        _ ≤ 1 / 200 + ((b :: rest2).length : Rat) / 200 :=
            add_le_add (abs_toFixed2_sub_le ra) hih
        _ = ((a :: b :: rest2).length : Rat) / 200 := by
            simp only [List.length_cons]
            push_cast
            ring

/-- Lemma: `generateRandomAllocations` with at least one asset: non-empty output
whose allocations sum to 100 within `1/200` per entry, for every random
stream. -/
theorem generateRandomAllocations_spec (rand : Nat → Rat) (numAssets : Nat)
    (h : 1 ≤ numAssets) :
    1 ≤ (generateRandomAllocations rand numAssets).length ∧
    |((generateRandomAllocations rand numAssets).map (fun a => a.allocation)).sum - 100| ≤
      ((generateRandomAllocations rand numAssets).length : Rat) / 200 := by
  have hne : MOCK_ASSETS.take numAssets ≠ [] := by
    apply List.length_pos.mp
    rw [List.length_take]
    have : MOCK_ASSETS.length = 10 := by decide
    omega
  have hperm : (generateRandomAllocations rand numAssets).Perm
      (allocLoop rand (MOCK_ASSETS.take numAssets) 0 100) :=
    List.mergeSort_perm _ _
  have hlen : (generateRandomAllocations rand numAssets).length =
      (MOCK_ASSETS.take numAssets).length := by
    rw [hperm.length_eq, allocLoop_length]
  have hsum : ((generateRandomAllocations rand numAssets).map (fun a => a.allocation)).sum =
      ((allocLoop rand (MOCK_ASSETS.take numAssets) 0 100).map (fun a => a.allocation)).sum :=
    (hperm.map _).sum_eq
  constructor
  · rw [hlen]
    exact List.length_pos.mpr hne
  · rw [hsum, hlen]
    exact allocLoop_sum_close rand _ 0 100 hne

/-- A rational that is a whole number of hundredths. -/
def IsCent (x : Rat) : Prop := ∃ k : Int, x = (k : Rat) / 100

theorem isCent_toFixed2 (x : Rat) : IsCent (toFixed2 x) := ⟨round (x * 100), rfl⟩

theorem toFixed2_eq_self {x : Rat} (h : IsCent x) : toFixed2 x = x := by
  obtain ⟨k, rfl⟩ := h
  unfold toFixed2
  rw [div_mul_cancel₀ _ (by norm_num : (100 : Rat) ≠ 0), round_intCast]

theorem isCent_sum : ∀ {l : List Rat}, (∀ x ∈ l, IsCent x) → IsCent l.sum := by
  intro l
  induction l with
  | nil => intro _; exact ⟨0, by norm_num⟩
  | cons a as ih =>
    intro h
    obtain ⟨k1, hk1⟩ := h a (List.mem_cons_self a as)
    obtain ⟨k2, hk2⟩ := ih (fun x hx => h x (List.mem_cons_of_mem a hx))
    exact ⟨k1 + k2, by rw [List.sum_cons, hk1, hk2]; push_cast; ring⟩

/-- The Equal Weighting adjustment forces the allocations to sum to
exactly 100 (the last entry absorbs the rounding of the others) and keeps
the number of entries. -/
theorem equalWeightAdjust_spec (allocations : List AssetAllocation) (h : allocations ≠ []) :
    ((equalWeightAdjust allocations).map (fun a => a.allocation)).sum = 100 ∧
    (equalWeightAdjust allocations).length = allocations.length := by
  have hpos : 0 < allocations.length := List.length_pos.mpr h
  have h2ne : allocations.map (fun a =>
      { a with allocation := toFixed2 (100 / ((allocations.length : Nat) : Rat)) }) ≠ [] := by
    simpa using h
  have hlast := List.getLast?_eq_getLast _ h2ne
  simp only [equalWeightAdjust]
  rw [if_pos hpos, hlast]
  set allocations2 := allocations.map (fun a =>
    { a with allocation := toFixed2 (100 / ((allocations.length : Nat) : Rat)) }) with halloc2
  set s := (allocations2.dropLast.map (fun a => a.allocation)).sum with hs
  have hcent : IsCent s := by
    apply isCent_sum
    intro x hx
    obtain ⟨elem, helem, hxe⟩ := List.mem_map.mp hx
    have helem2 : elem ∈ allocations2 := (List.dropLast_sublist _).subset helem
    obtain ⟨a0, _, ha0⟩ := List.mem_map.mp helem2
    rw [← hxe, ← ha0]
    exact isCent_toFixed2 _
  have hcent2 : IsCent (100 - s) := by
    obtain ⟨k, hk⟩ := hcent
    exact ⟨10000 - k, by rw [hk]; push_cast; ring⟩
  constructor
  · rw [List.map_append, List.sum_append]
    simp only [List.map_cons, List.map_nil, List.sum_cons, List.sum_nil, add_zero]
    rw [toFixed2_eq_self hcent2]
    ring
  · rw [List.length_append, List.length_dropLast, List.length_singleton, List.length_map]
    omega

/-- Every allocation list `resultGeneration` produces (on a non-empty ticker
list) is non-empty and sums to 100 within `1/200` per entry. -/
theorem resultGeneration_allocations (method : String)
    (allStockData : List (String × List Rat)) (tickers : List String)
    (flag : Bool) (ra rm rf : Nat → Rat) (h : tickers ≠ []) :
    1 ≤ (resultGeneration method allStockData tickers flag ra rm rf).allocations.length ∧
    |((resultGeneration method allStockData tickers flag ra rm rf).allocations.map
        (fun a => a.allocation)).sum - 100| ≤
      ((resultGeneration method allStockData tickers flag ra rm rf).allocations.length : Rat)
        / 200 := by
  have htl : 1 ≤ tickers.length := List.length_pos.mpr h
  unfold resultGeneration
  cases flag with
  | false =>
    simp only [Bool.false_eq_true, if_false]
    exact generateRandomAllocations_spec ra tickers.length htl
  | true =>
    simp only [if_true]
    have hnum : 1 ≤ (if allStockData.length = 0 then tickers.length else allStockData.length) := by
      split
      · exact htl
      · next hd => omega
    by_cases hmc : method = "Monte Carlo Simulation"
    · simp only [if_pos hmc]
      exact generateRandomAllocations_spec ra _ hnum
    · by_cases hew : method = "Equal Weighting"
      · simp only [if_neg hmc, if_pos hew]
        have hg := generateRandomAllocations_spec ra _ hnum
        have hgne : generateRandomAllocations ra
            (if allStockData.length = 0 then tickers.length else allStockData.length) ≠ [] :=
          List.length_pos.mp hg.1
        obtain ⟨hsum, hlen⟩ := equalWeightAdjust_spec _ hgne
        constructor
        · rw [hlen]; exact hg.1
        · rw [hsum, hlen]
          simp only [sub_self, abs_zero]
          positivity
      · simp only [if_neg hmc, if_neg hew]
        exact generateRandomAllocations_spec ra _ hnum

/-- C8 (amended). Every result returned by the optimize operation has a
non-empty allocation list whose percentages sum to 100 within an absolute
tolerance of `0.005` *per allocation entry* (`length × 1/200`), for every
input, fetch behaviour and random stream; the original fixed `±0.01`
tolerance is too tight (see the counterexample). -/
theorem claim8_allocations_sum_bounded (params : OptimizationParams)
    (fetch : String → String → FetchOutcome) (postW : Option String)
    (ra rm rf : Nat → Rat) (resp : OptimizationApiResponse)
    (h : optimizePortfolio params fetch postW ra rm rf = Except.ok resp) :
    1 ≤ resp.results.allocations.length ∧
    |(resp.results.allocations.map (fun a => a.allocation)).sum - 100| ≤
      (resp.results.allocations.length : Rat) * (1 / 200) := by
  simp only [optimizePortfolio, Except.ok.injEq] at h
  subst h
  obtain ⟨h1, h2⟩ := resultGeneration_allocations params.method _ (tickersToFetch params)
    _ ra rm rf (tickersToFetch_ne_nil params)
  exact ⟨h1, by rw [mul_one_div]; exact h2⟩

/-- Extract the response from an `Except`, with a default. -/
def respOf (e : Except String OptimizationApiResponse)
    (d : OptimizationApiResponse) : OptimizationApiResponse :=
  match e with
  | Except.ok r => r
  | Except.error _ => d

/-- An empty placeholder response. -/
def dummyResponse : OptimizationApiResponse :=
  { results := { allocations := [], metrics := ⟨0, 0, 0⟩, efficientFrontierData := none }
    warning := none }

/-- Witness for C8 (amended) at concrete arguments. -/
theorem claim8_allocations_sum_bounded_witness :
    1 ≤ (respOf (optimizePortfolio ⟨["tickers.csv"], "daily", "MaxSharpe"⟩
        (fun _ _ => FetchOutcome.ok [1]) none (fun _ => 0) (fun _ => 0) (fun _ => 0))
        dummyResponse).results.allocations.length ∧
    |((respOf (optimizePortfolio ⟨["tickers.csv"], "daily", "MaxSharpe"⟩
        (fun _ _ => FetchOutcome.ok [1]) none (fun _ => 0) (fun _ => 0) (fun _ => 0))
        dummyResponse).results.allocations.map (fun a => a.allocation)).sum - 100| ≤
      ((respOf (optimizePortfolio ⟨["tickers.csv"], "daily", "MaxSharpe"⟩
        (fun _ _ => FetchOutcome.ok [1]) none (fun _ => 0) (fun _ => 0) (fun _ => 0))
        dummyResponse).results.allocations.length : Rat) * (1 / 200) :=
  claim8_allocations_sum_bounded ⟨["tickers.csv"], "daily", "MaxSharpe"⟩
    (fun _ _ => FetchOutcome.ok [1]) none (fun _ => 0) (fun _ => 0) (fun _ => 0) _ rfl

/-- Parameters driving the C8 counterexample: no uploads (so the five mock
assets are allocated) and a method that triggers no reallocation. -/
def paramsC8 : OptimizationParams :=
  { uploadedFileNames := [], interval := "daily", method := "MaxSharpe" }

/-- Random draws that make each of the five allocations round down by
`0.004`: every unrounded allocation is `10.004`, the last remainder is
`59.984`. -/
def randC8 : Nat → Rat :=
  fun i => [(2501 : Rat) / 5000, 10004 / 22499, 2501 / 6666, 5002 / 17497].getD i 0

/-- The allocation sum of a response. -/
def respAllocSum (e : Except String OptimizationApiResponse) : Rat :=
  match e with
  | Except.ok resp => (resp.results.allocations.map (fun a => a.allocation)).sum
  | Except.error _ => 0

/-- C8, counterexample. For the random draws `randC8` the optimize
operation returns allocations `[10, 10, 10, 10, 59.98]` summing to `99.98`:
the deviation from 100 is `0.02 > 0.01`, refuting the `±0.01` tolerance. -/
theorem claim8_counterexample :
    respAllocSum (optimizePortfolio paramsC8 (fun _ _ => FetchOutcome.ok []) none
      randC8 (fun _ => 0) (fun _ => 0)) = 9998 / 100 ∧
    ¬ (|respAllocSum (optimizePortfolio paramsC8 (fun _ _ => FetchOutcome.ok []) none
      randC8 (fun _ => 0) (fun _ => 0)) - 100| ≤ 1 / 100) := by
  have hstep : respAllocSum (optimizePortfolio paramsC8 (fun _ _ => FetchOutcome.ok []) none
      randC8 (fun _ => 0) (fun _ => 0)) =
      ((generateRandomAllocations randC8 5).map (fun a => a.allocation)).sum := by
    simp only [optimizePortfolio, respAllocSum, resultGeneration]
    norm_num [tickersToFetch, paramsC8, MOCK_ASSETS, fetchLoop]
  have hperm : ((generateRandomAllocations randC8 5).map (fun a => a.allocation)).Perm
      ((allocLoop randC8 (MOCK_ASSETS.take 5) 0 100).map (fun a => a.allocation)) :=
    (List.mergeSort_perm _ _).map _
  have hloop : ((allocLoop randC8 (MOCK_ASSETS.take 5) 0 100).map
      (fun a => a.allocation)).sum = 9998 / 100 := by
    norm_num [allocLoop, MOCK_ASSETS, List.take, randC8, toFixed2, round_eq]
  have hsum : respAllocSum (optimizePortfolio paramsC8 (fun _ _ => FetchOutcome.ok []) none
      randC8 (fun _ => 0) (fun _ => 0)) = 9998 / 100 := by
    rw [hstep, hperm.sum_eq, hloop]
  refine ⟨hsum, ?_⟩
  rw [hsum]
  intro hcontra
  rw [show (9998 : Rat) / 100 - 100 = -(2 / 100) from by norm_num, abs_neg] at hcontra
  rw [show |(2 : Rat) / 100| = 2 / 100 from by norm_num] at hcontra
  norm_num at hcontra

/-- Concrete limiter state used to witness C1. -/
def rlC1 : RateLimiter :=
  { hourlyLimit := 1, dailyLimit := 100
    warningThresholdHourly := 0, warningThresholdDaily := 0
    hourlyRequestTimestamps := [0], dailyRequestTimestamps := [0] }

/-- Witness for C1: in the state with one logged call at time `0` and an
hourly limit of `1`, the request at time `10` is denied with the computed
hourly delay and warning. -/
theorem claim1_denial_results_witness :
    (requestPermission rlC1 10).1 =
      { allowed := false
        delayMs := some (max 0 ((0 : Int) + 3600000 - 10) + 100)
        warning := some ("Hourly rate limit exceeded (" ++
          toString ([(0 : Int)] : List Int).length ++ "/" ++ toString rlC1.hourlyLimit ++ ").") } ∧
    ∀ ts ∈ (cleanupTimestamps rlC1 10).hourlyRequestTimestamps, (0 : Int) ≤ ts :=
  (claim1_denial_results rlC1 10 (by decide) (by decide)).1 0 [] (by decide) (by decide)
